import Mathlib

/-!
Verification of the user / certificate / OTP module of the pritunl
repository (src/pritunl/user.py) against its natural-language
specification.  The Python code is shallowly embedded: pure computation
(the TOTP algorithm of verify_otp_code) is translated to executable Lean
functions on Nat byte lists, and the stateful lifecycle operations
( _initialize, _revoke, remove, rename, bundle building) are translated to
pure functions producing an explicit effect trace, a final file-system
value, and an Except value standing for the Python exception behaviour.
-/

namespace Pritunl

/-! ## Byte-level primitives (shared by the TOTP embedding)

Bytes are Nat values below 256, machine words are Nat values reduced
modulo 2 ^ 32 at each arithmetic step, exactly where Python reduces them.
-/

/-- Rotate a 32-bit word left by n bits (n between 1 and 31). -/
def rotl32 (x n : Nat) : Nat :=
  ((x <<< n) % 4294967296) ||| (x >>> (32 - n))

/-- Big-endian byte encoding of x on n bytes. -/
def natToBytesBE : Nat → Nat → List Nat
  | 0, _ => []
  | n + 1, x => natToBytesBE n (x / 256) ++ [x % 256]

/-- Big-endian interpretation of a byte list, as used by
struct.unpack with format >L in user.py line 184. -/
def bytesToNatBE (bs : List Nat) : Nat :=
  bs.foldl (fun a b => a * 256 + b) 0

/-- Group a byte list into big-endian 32-bit words. -/
def bytesToWords : List Nat → List Nat
  | b3 :: b2 :: b1 :: b0 :: rest =>
      (b3 * 16777216 + b2 * 65536 + b1 * 256 + b0) :: bytesToWords rest
  | _ => []

/-! ## SHA-1 (hashlib.sha1, the hash used by hmac.new in user.py line 181) -/

/-- SHA-1 round function, selected by round index. -/
def sha1f (i b c d : Nat) : Nat :=
  if i < 20 then (b &&& c) ||| ((b ^^^ 4294967295) &&& d)
  else if i < 40 then b ^^^ c ^^^ d
  else if i < 60 then (b &&& c) ||| (b &&& d) ||| (c &&& d)
  else b ^^^ c ^^^ d

/-- SHA-1 round constant, selected by round index. -/
def sha1k (i : Nat) : Nat :=
  if i < 20 then 1518500249
  else if i < 40 then 1859775393
  else if i < 60 then 2400959708
  else 3395469782

/-- Extend the 16 message words to the full 80-word schedule.  The word
list is kept reversed (most recent word first) so that the references to
words 3, 8, 14 and 16 places back are list indices 2, 7, 13 and 15. -/
def sha1ExtendRev : List Nat → Nat → List Nat
  | w, 0 => w
  | w, k + 1 =>
      sha1ExtendRev
        ((rotl32 (w.getD 2 0 ^^^ w.getD 7 0 ^^^ w.getD 13 0 ^^^ w.getD 15 0) 1) :: w)
        k

/-- The 80 compression rounds, over (round index, schedule word) pairs. -/
def sha1rounds : List (Nat × Nat) → Nat × Nat × Nat × Nat × Nat → Nat × Nat × Nat × Nat × Nat
  | [], s => s
  | (i, w) :: rest, (a, b, c, d, e) =>
      let t := (rotl32 a 5 + sha1f i b c d + e + sha1k i + w) % 4294967296
      sha1rounds rest (t, a, rotl32 b 30, c, d)

/-- Process one 64-byte block. -/
def sha1Block (hs : Nat × Nat × Nat × Nat × Nat) (block : List Nat) :
    Nat × Nat × Nat × Nat × Nat :=
  let (h0, h1, h2, h3, h4) := hs
  let w := (sha1ExtendRev (bytesToWords block).reverse 64).reverse
  let (a, b, c, d, e) := sha1rounds ((List.range 80).zip w) (h0, h1, h2, h3, h4)
  ((h0 + a) % 4294967296, (h1 + b) % 4294967296, (h2 + c) % 4294967296,
   (h3 + d) % 4294967296, (h4 + e) % 4294967296)

/-- SHA-1 message padding: a 0x80 byte, zero bytes up to 56 mod 64, then
the bit length on 8 big-endian bytes. -/
def sha1pad (msg : List Nat) : List Nat :=
  let len := msg.length
  let zeros := (119 - len % 64) % 64
  msg ++ [128] ++ List.replicate zeros 0 ++ natToBytesBE 8 (len * 8)

/-- Split a (padded) byte list into 64-byte blocks; the fuel argument is
an upper bound on the number of blocks and is passed as the list length. -/
def chunks64 : Nat → List Nat → List (List Nat)
  | _, [] => []
  | 0, _ => []
  | f + 1, l => l.take 64 :: chunks64 f (l.drop 64)

/-- SHA-1 of a byte list, producing the 20 digest bytes. -/
def sha1 (msg : List Nat) : List Nat :=
  let padded := sha1pad msg
  let (h0, h1, h2, h3, h4) :=
    (chunks64 padded.length padded).foldl sha1Block
      (1732584193, 4023233417, 2562383102, 271733878, 3285377520)
  natToBytesBE 4 h0 ++ natToBytesBE 4 h1 ++ natToBytesBE 4 h2 ++
    natToBytesBE 4 h3 ++ natToBytesBE 4 h4

/-! ## HMAC (hmac.new with sha1, user.py line 181) -/

/-- HMAC-SHA1 over byte lists. -/
def hmacSha1 (key msg : List Nat) : List Nat :=
  let key := if key.length > 64 then sha1 key else key
  let key := key ++ List.replicate (64 - key.length) 0
  sha1 ((key.map (fun b => b ^^^ 92)) ++ sha1 ((key.map (fun b => b ^^^ 54)) ++ msg))

/-! ## Base32 decoding (base64.b32decode, user.py line 176) -/

/-- Value of one base32 alphabet character (A-Z then 2-7). -/
def b32charVal (c : Char) : Option Nat :=
  if 65 ≤ c.toNat ∧ c.toNat ≤ 90 then some (c.toNat - 65)
  else if 50 ≤ c.toNat ∧ c.toNat ≤ 55 then some (c.toNat - 24)
  else none

/-- Map the data characters of a base32 string to their 5-bit values,
failing on a character outside the alphabet. -/
def b32vals : List Char → Option (List Nat)
  | [] => some []
  | c :: rest =>
      match b32charVal c, b32vals rest with
      | some v, some vs => some (v :: vs)
      | _, _ => none

/-- Base32 decoding as performed by base64.b32decode: the input length
must be a multiple of 8, trailing padding must leave a legal final
quantum (0, 1, 3, 4 or 6 pad characters), and the 5-bit values are
concatenated and cut to whole bytes. -/
def b32decode (s : String) : Option (List Nat) :=
  let cs := s.data
  if cs.length % 8 ≠ 0 then none
  else
    let pad := (cs.reverse.takeWhile (fun c => c = '=')).length
    let dat := cs.take (cs.length - pad)
    if pad % 8 ∉ [0, 1, 3, 4, 6] then none
    else if dat.any (fun c => c = '=') then none
    else
      match b32vals dat with
      | none => none
      | some vals =>
          let totalBits := vals.length * 5
          let nbytes := totalBits / 8
          some (natToBytesBE nbytes
            ((vals.foldl (fun a v => a * 32 + v) 0) >>> (totalBits - nbytes * 8)))

/-! ## The TOTP candidate computation (user.py lines 171-189) -/

/-- Uppercase a string character-wise, as str.upper does for ASCII. -/
def strUpper (s : String) : String := String.mk (s.data.map Char.toUpper)

/-- Pad the stored secret to an 8-character boundary with the padding
character, exactly as user.py lines 173-175. -/
def padSecret (s : String) : String :=
  let padding := 8 - s.length % 8
  if padding ≠ 8 then s ++ String.mk (List.replicate padding '=') else s

/-- Two-complement big-endian encoding of a signed 64-bit integer, as
struct.pack with format >q (user.py line 180). -/
def int64be (i : Int) : List Nat :=
  natToBytesBE 8 (i.emod 18446744073709551616).toNat

/-- Decimal string of n left-padded with zeros to 6 digits, as the
Python format %06d applied to a value below 1000000. -/
def zeroPad6 (n : Nat) : String :=
  let s := toString n
  String.mk (List.replicate (6 - s.length) '0') ++ s

/-- One candidate passcode for a counter value: HMAC-SHA1 of the 8-byte
big-endian counter, dynamic truncation at the offset given by the low
nibble of the last digest byte, reduce modulo 2 ^ 31 then modulo
1000000, print on 6 digits (user.py lines 180-187). -/
def totpCandidate (key : List Nat) (counter : Int) : String :=
  let hmac_hash := hmacSha1 key (int64be counter)
  let offset := (hmac_hash.getLastD 0) &&& 15
  let truncated := bytesToNatBE ((hmac_hash.drop offset).take 4)
  zeroPad6 ((truncated &&& 2147483647) % 1000000)

/-- The three window candidates of verify_otp_code (user.py lines
172-187): pad and uppercase the secret, base32-decode it, take the
30-second epoch counter of the current time and the counters one window
before and after.  Returns none when the secret does not decode (the
Python code raises there). -/
def validCodes (otp_secret : String) (now : Nat) : Option (List String) :=
  match b32decode (strUpper (padSecret otp_secret)) with
  | none => none
  | some key =>
      let epoch : Int := (now / 30 : Nat)
      some [totpCandidate key (epoch - 1), totpCandidate key epoch,
            totpCandidate key (epoch + 1)]

/-! ## The used-passcode record (cache_db dict, user.py lines 191-198)

The record is a mapping from the decimal UNIX timestamp of use to the
consumed code; it is embedded as an association list with Nat keys (the
Python keys are canonical decimal strings of those Nat values).
-/

/-- Remove the entry with the given key, as cache_db.dict_remove. -/
def dict_remove (d : List (Nat × String)) (k : Nat) : List (Nat × String) :=
  d.filter (fun e => e.1 ≠ k)

/-- Add or overwrite the entry with the given key, as cache_db.dict_set. -/
def dict_set (d : List (Nat × String)) (k : Nat) (v : String) : List (Nat × String) :=
  (k, v) :: dict_remove d k

/-- Whether a used-passcode entry survives the 120-second pruning of
user.py line 193 at the given current time. -/
def keepEntry (now : Nat) (e : Nat × String) : Bool :=
  ! decide (now - e.1 > 120)

/-- The pruning and replay-rejection loop of user.py lines 192-198: walk
the snapshot of the record, remove from the live record every entry
whose timestamp is more than 120 seconds old, return false as soon as an
entry of the snapshot carries the submitted code, and otherwise record
the code under the current timestamp and return true. -/
def otpPruneLoop (code : String) (now : Nat) :
    List (Nat × String) → List (Nat × String) → Bool × List (Nat × String)
  | [], cur => (true, dict_set cur now code)
  | (t, c) :: rest, cur =>
      let cur2 := if now - t > 120 then dict_remove cur t else cur
      if c = code then (false, cur2) else otpPruneLoop code now rest cur2

/-- verify_otp_code (user.py lines 171-200): reject a code outside the
three window candidates without touching the record, otherwise run the
pruning and replay loop over the record.  The result is the returned
boolean and the final used-passcode record; none models the exception
raised when the stored secret does not base32-decode. -/
def verify_otp_code (otp_secret code : String) (now : Nat)
    (cache : List (Nat × String)) : Option (Bool × List (Nat × String)) :=
  match validCodes otp_secret now with
  | none => none
  | some cs =>
      if code ∈ cs then some (otpPruneLoop code now cache cache)
      else some (false, cache)

/-! ## Constants of the data model

The module constants.py of the repository is not under src/, so the
constant values are modelled from the spec.
-/

/-- Modelled from the spec: the reserved sentinel id of the CA identity
(CA_CERT_ID in the missing constants.py); the claims only compare ids
against it, so only its value as a fixed string matters. -/
def CA_CERT_ID : String := "ca"

/-- Modelled from the spec: the CA kind tag (CERT_CA in the missing
constants.py); the spec names the extension sections ca_ext and
ca_req_ext, so the tag is the string ca. -/
def CERT_CA : String := "ca"

/-- Modelled from the spec: the SERVER kind tag, per the extension
sections server_ext and server_req_ext. -/
def CERT_SERVER : String := "server"

/-- Modelled from the spec: the CLIENT kind tag, per the extension
sections client_ext and client_req_ext. -/
def CERT_CLIENT : String := "client"

/-! ## The identity and its derived file paths (user.py lines 29-56) -/

/-- The fields of an identity that the verified operations touch. -/
structure UserSt where
  id : String
  org_id : String
  org_path : String
  name : String
  type : String
  otp_secret : String
deriving DecidableEq, Repr

/-- reqs/<id>.csr under the organization root (user.py lines 45-46, the
directory names are modelled from the spec filesystem layout). -/
def reqs_path (u : UserSt) : String := u.org_path ++ "/reqs/" ++ u.id ++ ".csr"

/-- temp/<id>.conf under the organization root (user.py lines 47-48). -/
def ssl_conf_path (u : UserSt) : String := u.org_path ++ "/temp/" ++ u.id ++ ".conf"

/-- keys/<id>.key under the organization root (user.py lines 49-50). -/
def key_path (u : UserSt) : String := u.org_path ++ "/keys/" ++ u.id ++ ".key"

/-- certs/<id>.crt under the organization root (user.py lines 51-52). -/
def cert_path (u : UserSt) : String := u.org_path ++ "/certs/" ++ u.id ++ ".crt"

/-- users/<id>.conf under the organization root, the persisted record
(user.py lines 55-56). -/
def user_conf_path (u : UserSt) : String := u.org_path ++ "/users/" ++ u.id ++ ".conf"

/-! ## Effect traces and the file system

The stateful lifecycle operations are embedded as pure functions that
return the list of performed effects (external calls, lock operations,
log and notification emissions), the final file system, and an Except
value modelling the Python exception outcome.
-/

/-- The two notification kinds emitted by this module. -/
inductive EvType where
  | usersUpdated
  | serversUpdated
deriving DecidableEq, Repr

/-- One observable effect of a lifecycle operation. -/
inductive Effect where
  | clearCache
  | writeSslConf
  | deleteSslConf
  | lockAcquire
  | lockRelease
  | engineRequest (reqExt : String)
  | chmodKey
  | genOtpSecret
  | commit
  | engineSign (selfsign : Bool) (ext : String)
  | engineRevoke (reason : String)
  | generateCrl
  | logError
  | logWarning
  | logDebug
  | logCreatedUser (name : String)
  | logDeletedUser (name : String)
  | event (ty : EvType) (resource : Option String)
  | removeFile (path : String)
deriving DecidableEq, Repr

/-- Whether an effect is an invocation of the external CA engine. -/
def Effect.isEngine : Effect → Bool
  | .engineRequest _ => true
  | .engineSign _ _ => true
  | .engineRevoke _ => true
  | _ => false

/-- Whether an effect is the certificate-signing engine invocation. -/
def Effect.isSign : Effect → Bool
  | .engineSign _ _ => true
  | _ => false

/-- The two Python exception kinds raised by the verified operations. -/
inductive PyErr where
  | typeError
  | calledProcessError
deriving DecidableEq, Repr

/-- The file system, as a mapping from path to content. -/
abbrev FS := List (String × String)

/-- Content of the file at a path, if present. -/
def fsLookup : FS → String → Option String
  | [], _ => none
  | (k, v) :: rest, p => if k = p then some v else fsLookup rest p

/-- Remove the file at a path (no error when absent). -/
def fsRemove (fs : FS) (p : String) : FS := fs.filter (fun e => e.1 ≠ p)

/-- Write the file at a path, replacing any previous content. -/
def fsSet (fs : FS) (p v : String) : FS := (p, v) :: fsRemove fs p

/-- os.remove: delete the file or fail with OSError when it is absent. -/
def os_remove (fs : FS) (p : String) : Except Unit FS :=
  if (fsLookup fs p).isSome then .ok (fsRemove fs p) else .error ()

/-- The external inputs of a lifecycle operation: the configured key
size and the exit behaviour of each CA engine invocation. -/
structure Env where
  key_bits : Nat
  reqOk : Bool
  signOk : Bool
  revokeReturncode : Nat
  revokeStderr : String
deriving DecidableEq, Repr

/-- Modelled from the spec: the CERT_CONF signing-config template of the
missing constants.py, a textual template parameterized by organization
id, organization root path, configured key size, and identity id
(user.py lines 146-151 fill it in exactly this order). -/
def CERT_CONF (org_id org_path : String) (key_bits : Nat) (id : String) : String :=
  "[ident]\norg=" ++ org_id ++ "\ndir=" ++ org_path ++
    "\ndefault_bits=" ++ toString key_bits ++ "\ncommonName=" ++ id ++ "\n"

/-- Substring test on character lists, for the Python operator in
applied to strings. -/
def subOfList (needle : List Char) : List Char → Bool
  | [] => needle.isEmpty
  | c :: rest => needle.isPrefixOf (c :: rest) || subOfList needle rest

/-- Whether needle occurs as a substring of hay. -/
def strContains (hay needle : String) : Bool := subOfList needle.data hay.data

/-! ## Certificate lifecycle operations (user.py lines 90-142, 202-237,
343-405) -/

/-- _cert_request (user.py lines 102-122): under the identity lock run
the engine request with the kind-specific request extension section; on
failure log and re-raise, releasing the lock either way; on success set
the key file mode. -/
def _cert_request (u : UserSt) (env : Env) : List Effect × Except PyErr Unit :=
  if env.reqOk then
    ([.lockAcquire, .engineRequest (u.type ++ "_req_ext"), .lockRelease, .chmodKey],
     .ok ())
  else
    ([.lockAcquire, .engineRequest (u.type ++ "_req_ext"), .logError, .lockRelease],
     .error .calledProcessError)

/-- _cert_create (user.py lines 124-142): run the engine signing step,
with -selfsign exactly when the kind is CA, using the kind-specific
extension section; on failure log and re-raise.  No lock is taken. -/
def _cert_create (u : UserSt) (env : Env) : List Effect × Except PyErr Unit :=
  if env.signOk then
    ([.engineSign (u.type == CERT_CA) (u.type ++ "_ext")], .ok ())
  else
    ([.engineSign (u.type == CERT_CA) (u.type ++ "_ext"), .logError],
     .error .calledProcessError)

/-- _initialize (user.py lines 90-100): write the temporary
signing-config, run the request step, generate the OTP secret, commit,
run the signing step, delete the temporary signing-config, then emit the
audit line (for CLIENT kind) and the two notifications.  An engine
failure aborts the sequence and propagates. -/
def _initialize_user (u : UserSt) (env : Env) : List Effect × Except PyErr Unit :=
  let tr := [Effect.writeSslConf]
  match _cert_request u env with
  | (tr1, .error e) => (tr ++ tr1, .error e)
  | (tr1, .ok _) =>
      let tr2 := [Effect.genOtpSecret, Effect.commit]
      match _cert_create u env with
      | (tr3, .error e) => (tr ++ tr1 ++ tr2 ++ tr3, .error e)
      | (tr3, .ok _) =>
          (tr ++ tr1 ++ tr2 ++ tr3 ++ [Effect.deleteSslConf] ++
            (if u.type == CERT_CLIENT then [Effect.logCreatedUser u.name] else []) ++
            [Effect.event .usersUpdated (some u.org_id),
             Effect.event .serversUpdated none],
           .ok ())

/-- _revoke (user.py lines 202-237): refuse the CA sentinel id with a
TypeError before doing anything; treat a missing certificate file as
already revoked (log a warning, succeed); otherwise, under the identity
lock, write the signing-config and run the engine revocation with the
given reason: a non-zero exit whose error output does not contain the
already-revoked marker is logged and re-raised, any other outcome
deletes the signing-config and regenerates the CRL. -/
def _revoke (u : UserSt) (reason : String) (env : Env) (fs : FS) :
    List Effect × FS × Except PyErr Unit :=
  if u.id = CA_CERT_ID then ([], fs, .error .typeError)
  else if (fsLookup fs (cert_path u)).isSome = false then
    ([.logWarning], fs, .ok ())
  else
    let fs1 := fsSet fs (ssl_conf_path u) (CERT_CONF u.org_id u.org_path env.key_bits u.id)
    if env.revokeReturncode ≠ 0 ∧
        strContains env.revokeStderr "ERROR:Already revoked" = false then
      ([.lockAcquire, .writeSslConf, .engineRevoke reason, .logError, .lockRelease],
       fs1, .error .calledProcessError)
    else
      ([.lockAcquire, .writeSslConf, .engineRevoke reason, .deleteSslConf,
        .lockRelease, .generateCrl],
       fsRemove fs1 (ssl_conf_path u), .ok ())

/-- One best-effort deletion of the removal sequence (user.py lines
358-401): attempt os.remove, swallow an OSError, logging it at debug
level for every file except the temporary signing-config. -/
def tryRemove (fs : FS) (p : String) (logIt : Bool) : List Effect × FS :=
  match os_remove fs p with
  | .ok fs2 => ([.removeFile p], fs2)
  | .error _ => ((if logIt then [.logDebug] else []), fs)

/-- remove (user.py lines 352-405): invalidate the cache entry, capture
name and kind, revoke (propagating a revocation error), then best-effort
delete the request file, the temporary signing-config, the key file, the
certificate file and the persisted record, each attempt independent of
the previous failures; finally emit the notification and, for CLIENT
kind, the audit line with the captured name. -/
def remove (u : UserSt) (reason : String) (env : Env) (fs : FS) :
    List Effect × FS × Except PyErr Unit :=
  let tr0 := [Effect.clearCache]
  match _revoke u reason env fs with
  | (tr, fs1, .error e) => (tr0 ++ tr, fs1, .error e)
  | (tr, fs1, .ok _) =>
      let r1 := tryRemove fs1 (reqs_path u) true
      let r2 := tryRemove r1.2 (ssl_conf_path u) false
      let r3 := tryRemove r2.2 (key_path u) true
      let r4 := tryRemove r3.2 (cert_path u) true
      let r5 := tryRemove r4.2 (user_conf_path u) true
      (tr0 ++ tr ++ r1.1 ++ r2.1 ++ r3.1 ++ r4.1 ++ r5.1 ++
        [Effect.event .usersUpdated (some u.org_id)] ++
        (if u.type == CERT_CLIENT then [Effect.logDeletedUser u.name] else []),
       r5.2, .ok ())

/-- Modelled from the spec: the persisted record written by
Config.commit of the missing config.py, rendering the persisted string
options name, otp_secret and type. -/
def persistedRecord (u : UserSt) : String :=
  "name=" ++ u.name ++ "\notp_secret=" ++ u.otp_secret ++ "\ntype=" ++ u.type ++ "\n"

/-- rename (user.py lines 347-350): set the display name, commit the
persisted record, emit the organization-scoped notification. -/
def rename (u : UserSt) (newName : String) (fs : FS) :
    UserSt × FS × List Effect :=
  let u2 := { u with name := newName }
  (u2, fsSet fs (user_conf_path u2) (persistedRecord u2),
   [Effect.commit, Effect.event .usersUpdated (some u.org_id)])

/-! ## Bundle building (user.py lines 277-341)

The per-server topology comes from the external organization registry;
a server is embedded by the fields the builders read.  File contents are
embedded directly: ca_cert_block stands for the PEM block that
utils.get_cert_block extracts from the server CA certificate file after
server.generate_ca_cert, cert_block for the block extracted from the
identity certificate file, and key_data for the stripped content of the
identity key file (utils.py is not under src/; the spec describes these
as PEM text blocks).
-/

/-- The fields of one server that bundle building reads. -/
structure ServerInfo where
  id : String
  name : String
  protocol : String
  public_address : String
  port : Nat
  otp_auth : Bool
  ca_cert_block : String
deriving DecidableEq, Repr

/-- The per-identity inputs of bundle building. -/
structure UserFiles where
  org_name : String
  name : String
  cert_block : String
  key_data : String
deriving DecidableEq, Repr

/-- Modelled from the spec: the OVPN_INLINE_CLIENT_CONF template of the
missing constants.py, a templated text block parameterized by transport
protocol, public address, and port (in that order, per user.py lines
287-290). -/
def OVPN_INLINE_CLIENT_CONF (protocol public_address : String) (port : Nat) : String :=
  "client\ndev tun\nproto " ++ protocol ++ "\nremote " ++ public_address ++
    " " ++ toString port ++ "\nnobind\npersist-tun\nverb 2\n"

/-- One archive entry of _build_inline_key_archive (user.py lines
280-306): the archive name built from organization, identity and server
names, and the profile text built from the template instantiation, the
conditional auth-user-pass directive, and the three delimited blocks. -/
def inlineArchiveEntry (u : UserFiles) (server : ServerInfo) : String × String :=
  let server_conf_arcname := u.org_name ++ "_" ++ u.name ++ "_" ++ server.name ++ ".ovpn"
  let client_conf :=
    OVPN_INLINE_CLIENT_CONF server.protocol server.public_address server.port
  let client_conf :=
    if server.otp_auth then client_conf ++ "auth-user-pass\n" else client_conf
  let client_conf :=
    client_conf ++ "<ca>\n" ++ server.ca_cert_block ++ "\n</ca>\n"
  let client_conf :=
    client_conf ++ "<cert>\n" ++ u.cert_block ++ "\n</cert>\n"
  let client_conf :=
    client_conf ++ "<key>\n" ++ u.key_data ++ "\n</key>\n"
  (server_conf_arcname, client_conf)

/-- _build_inline_key_archive (user.py lines 277-310): one self-contained
profile entry per server of the organization; the temporary per-server
files written and re-deleted during assembly are not part of the result,
which is the list of (archive name, content) entries of the tar file. -/
def _build_inline_key_archive (u : UserFiles) (servers : List ServerInfo) :
    List (String × String) :=
  servers.map (inlineArchiveEntry u)

/-- Modelled from the spec: org.get_server of the external organization
registry, returning the server of the organization with the given id. -/
def get_server (servers : List ServerInfo) (server_id : String) : Option ServerInfo :=
  servers.find? (fun s => s.id == server_id)

/-- build_key_conf (user.py lines 318-341): look the server up in the
organization registry and return the display name and the single inline
profile text, built by the same steps as the inline archive entry
(template instantiation, conditional auth-user-pass directive, the three
delimited blocks); none models the failure of the registry lookup. -/
def build_key_conf (u : UserFiles) (servers : List ServerInfo)
    (server_id : String) : Option (String × String) :=
  match get_server servers server_id with
  | none => none
  | some server =>
      let conf_name := u.org_name ++ "_" ++ u.name ++ "_" ++ server.name ++ ".ovpn"
      let client_conf :=
        OVPN_INLINE_CLIENT_CONF server.protocol server.public_address server.port
      let client_conf :=
        if server.otp_auth then client_conf ++ "auth-user-pass\n" else client_conf
      let client_conf :=
        client_conf ++ "<ca>\n" ++ server.ca_cert_block ++ "\n</ca>\n"
      let client_conf :=
        client_conf ++ "<cert>\n" ++ u.cert_block ++ "\n</cert>\n"
      let client_conf :=
        client_conf ++ "<key>\n" ++ u.key_data ++ "\n</key>\n"
      some (conf_name, client_conf)

/-! ## Example values used by the witness theorems -/

/-- A concrete client identity. -/
def uEx : UserSt :=
  { id := "u1", org_id := "org1", org_path := "/orgs/org1", name := "alice",
    type := "client", otp_secret := "AAAAAAAAAAAAAAAA" }

/-- A concrete CA sentinel identity. -/
def uCaEx : UserSt :=
  { id := "ca", org_id := "org1", org_path := "/orgs/org1", name := "Org CA",
    type := "ca", otp_secret := "" }

/-- A concrete environment where every engine call succeeds. -/
def envEx : Env :=
  { key_bits := 2048, reqOk := true, signOk := true, revokeReturncode := 0,
    revokeStderr := "" }

/-- A concrete environment where the revocation exit is non-zero and the
error output carries the already-revoked marker. -/
def envRevokedEx : Env :=
  { key_bits := 2048, reqOk := true, signOk := true, revokeReturncode := 1,
    revokeStderr := "CA failure ERROR:Already revoked entry 12" }

/-- A concrete file system holding the certificate, the request and the
persisted record of uEx, but no key file. -/
def fsEx : FS :=
  [("/orgs/org1/certs/u1.crt", "CERTPEM"),
   ("/orgs/org1/reqs/u1.csr", "REQPEM"),
   ("/orgs/org1/users/u1.conf", "RECORD")]

/-! ## Example values for the bundle claims -/

/-- Concrete per-identity bundle inputs. -/
def ufEx : UserFiles :=
  { org_name := "org1", name := "alice", cert_block := "CLIENTCERTPEM",
    key_data := "CLIENTKEYPEM" }

/-- A concrete server requiring the second factor. -/
def sEx1 : ServerInfo :=
  { id := "s1", name := "east", protocol := "udp",
    public_address := "vpn1.example.com", port := 1194, otp_auth := true,
    ca_cert_block := "CACERTPEM1" }

/-- A concrete server not requiring the second factor. -/
def sEx2 : ServerInfo :=
  { id := "s2", name := "west", protocol := "tcp",
    public_address := "vpn2.example.com", port := 443, otp_auth := false,
    ca_cert_block := "CACERTPEM2" }

/-! ## Helper lemmas on the file-system embedding -/

theorem fsLookup_fsRemove_ne (fs : FS) (p q : String) (h : q ≠ p) :
    fsLookup (fsRemove fs p) q = fsLookup fs q := by
  induction fs with
  | nil => rfl
  | cons e rest ih =>
      obtain ⟨k, v⟩ := e
      by_cases hk : k = p
      · subst hk
        have hq : ¬ (k = q) := fun hkq => h (hkq ▸ rfl)
        simp [fsRemove, fsLookup, hq] at ih ⊢
        exact ih
      · simp [fsRemove, List.filter_cons, hk, fsLookup] at ih ⊢
        by_cases hkq : k = q <;> simp [hkq, ih]

theorem fsLookup_fsRemove_self (fs : FS) (p : String) :
    fsLookup (fsRemove fs p) p = none := by
  induction fs with
  | nil => rfl
  | cons e rest ih =>
      obtain ⟨k, v⟩ := e
      by_cases hk : k = p
      · simp [fsRemove, List.filter_cons, hk] at ih ⊢
        exact ih
      · simp [fsRemove, List.filter_cons, hk, fsLookup] at ih ⊢
        exact ih

theorem fsLookup_fsSet_ne (fs : FS) (p v q : String) (h : q ≠ p) :
    fsLookup (fsSet fs p v) q = fsLookup fs q := by
  have hp : ¬ (p = q) := fun hpq => h (hpq ▸ rfl)
  simp [fsSet, fsLookup, hp, fsLookup_fsRemove_ne fs p q h]

theorem fsLookup_none_fsRemove (fs : FS) (p q : String)
    (h : fsLookup fs q = none) : fsLookup (fsRemove fs p) q = none := by
  by_cases hq : q = p
  · subst hq; exact fsLookup_fsRemove_self fs q
  · rw [fsLookup_fsRemove_ne fs p q hq]; exact h

theorem tryRemove_lookup_self (fs : FS) (p : String) (logIt : Bool) :
    fsLookup (tryRemove fs p logIt).2 p = none := by
  unfold tryRemove os_remove
  by_cases h : (fsLookup fs p).isSome
  · simp [h, fsLookup_fsRemove_self]
  · simp [h]
    exact Option.not_isSome_iff_eq_none.mp h

theorem tryRemove_lookup_none (fs : FS) (p q : String) (logIt : Bool)
    (h : fsLookup fs q = none) : fsLookup (tryRemove fs p logIt).2 q = none := by
  unfold tryRemove os_remove
  by_cases hp : (fsLookup fs p).isSome
  · simp [hp, fsLookup_none_fsRemove fs p q h]
  · simpa [hp] using h

/-- Two derived paths with the same organization root and id but
different directory and extension segments of different total length are
distinct. -/
theorem path_len_ne {op id d1 e1 d2 e2 : String}
    (h : d1.length + e1.length ≠ d2.length + e2.length) :
    op ++ d1 ++ id ++ e1 ≠ op ++ d2 ++ id ++ e2 := by
  intro heq
  apply h
  have hl := congrArg String.length heq
  simp [String.length_append] at hl
  omega

theorem cert_ne_user_conf (u : UserSt) : cert_path u ≠ user_conf_path u :=
  path_len_ne (by decide)

theorem key_ne_user_conf (u : UserSt) : key_path u ≠ user_conf_path u :=
  path_len_ne (by decide)

/-! ## Claims C3, C5, C6 about _revoke -/

/-- C3: revoking the identity whose id is the CA sentinel fails
immediately with the invalid-operation error, for every revocation
reason, every environment and every file system; the effect trace is
empty (so the external CA engine is never invoked) and the file system
is returned unchanged (no state change). -/
theorem C3_revoke_ca_sentinel (u : UserSt) (reason : String) (env : Env)
    (fs : FS) (h : u.id = CA_CERT_ID) :
    _revoke u reason env fs = ([], fs, .error .typeError) := by
  simp [_revoke, h]

/-- Witness for C3 at a concrete input. -/
theorem C3_revoke_ca_sentinel_witness :
    _revoke uCaEx "unspecified" envEx fsEx = ([], fsEx, .error .typeError) :=
  C3_revoke_ca_sentinel uCaEx "unspecified" envEx fsEx (by decide)

/-- C5: revoking a non-sentinel identity whose certificate file does not
exist succeeds as a no-op whose only effect is a log line; in particular
the external CA engine is never invoked and the file system is returned
unchanged. -/
theorem C5_revoke_missing_cert (u : UserSt) (reason : String) (env : Env)
    (fs : FS) (hid : u.id ≠ CA_CERT_ID)
    (hcert : fsLookup fs (cert_path u) = none) :
    _revoke u reason env fs = ([Effect.logWarning], fs, .ok ()) ∧
    (Effect.logWarning).isEngine = false := by
  constructor
  · simp [_revoke, hid, hcert]
  · rfl

/-- Witness for C5 at a concrete input: the file system lacks the
certificate of uEx because it belongs to another identity. -/
theorem C5_revoke_missing_cert_witness :
    _revoke uEx "unspecified" envEx [("/orgs/org1/certs/u2.crt", "PEM")] =
      ([Effect.logWarning], [("/orgs/org1/certs/u2.crt", "PEM")], .ok ()) :=
  (C5_revoke_missing_cert uEx "unspecified" envEx
    [("/orgs/org1/certs/u2.crt", "PEM")] (by decide) (by decide)).1

/-- C6: when the engine exits non-zero during revocation of a
non-sentinel identity with an existing certificate file, the operation
succeeds and proceeds to CRL regeneration exactly when the error output
contains the already-revoked marker, and otherwise propagates the
process error. -/
theorem C6_revoke_engine_failure (u : UserSt) (reason : String) (env : Env)
    (fs : FS) (hid : u.id ≠ CA_CERT_ID)
    (hcert : (fsLookup fs (cert_path u)).isSome = true)
    (hrc : env.revokeReturncode ≠ 0) :
    (strContains env.revokeStderr "ERROR:Already revoked" = true →
      _revoke u reason env fs =
        ([.lockAcquire, .writeSslConf, .engineRevoke reason, .deleteSslConf,
          .lockRelease, .generateCrl],
         fsRemove (fsSet fs (ssl_conf_path u)
           (CERT_CONF u.org_id u.org_path env.key_bits u.id)) (ssl_conf_path u),
         .ok ())) ∧
    (strContains env.revokeStderr "ERROR:Already revoked" = false →
      _revoke u reason env fs =
        ([.lockAcquire, .writeSslConf, .engineRevoke reason, .logError,
          .lockRelease],
         fsSet fs (ssl_conf_path u)
           (CERT_CONF u.org_id u.org_path env.key_bits u.id),
         .error .calledProcessError)) := by
  constructor <;> intro h <;> simp [_revoke, hid, hcert, hrc, h]

/-- Witness for C6 at a concrete input with an already-revoked error
output. -/
theorem C6_revoke_engine_failure_witness :
    _revoke uEx "unspecified" envRevokedEx fsEx =
      ([.lockAcquire, .writeSslConf, .engineRevoke "unspecified",
        .deleteSslConf, .lockRelease, .generateCrl],
       fsRemove (fsSet fsEx (ssl_conf_path uEx)
         (CERT_CONF uEx.org_id uEx.org_path envRevokedEx.key_bits uEx.id))
         (ssl_conf_path uEx),
       .ok ()) :=
  (C6_revoke_engine_failure uEx "unspecified" envRevokedEx fsEx
    (by decide) (by decide) (by decide)).1 (by decide)

/-! ## Claim C9 about rename -/

/-- C9: rename only mutates the display name and then persists and
notifies: the returned identity is the input with only the name field
replaced (so id, kind and OTP secret are unchanged), the certificate and
key files are byte-identical before and after, and the effect trace is
exactly a commit and a notification (no CA engine invocation). -/
theorem C9_rename_frame (u : UserSt) (newName : String) (fs : FS) :
    (rename u newName fs).1 = { u with name := newName } ∧
    fsLookup (rename u newName fs).2.1 (cert_path u) =
      fsLookup fs (cert_path u) ∧
    fsLookup (rename u newName fs).2.1 (key_path u) =
      fsLookup fs (key_path u) ∧
    (rename u newName fs).2.2 =
      [Effect.commit, Effect.event .usersUpdated (some u.org_id)] := by
  refine ⟨rfl, ?_, ?_, rfl⟩
  · exact fsLookup_fsSet_ne fs (user_conf_path u) _ (cert_path u)
      (cert_ne_user_conf u)
  · exact fsLookup_fsSet_ne fs (user_conf_path u) _ (key_path u)
      (key_ne_user_conf u)

/-! ## Claim C4 about the initialization order -/

/-- C4 counterexample: on a concrete new client identity with a
successful environment, the certificate-signing engine invocation sits
at position 7 of the initialization trace, after the OTP-secret
generation (position 5) and after the persistence commit (position 6),
whereas the claim places the signing before both. -/
theorem C4_initialize_order_counterexample :
    (_initialize_user uEx envEx).1 =
      [.writeSslConf, .lockAcquire, .engineRequest "client_req_ext",
       .lockRelease, .chmodKey, .genOtpSecret, .commit,
       .engineSign false "client_ext", .deleteSslConf, .logCreatedUser "alice",
       .event .usersUpdated (some "org1"), .event .serversUpdated none] ∧
    (_initialize_user uEx envEx).1.findIdx Effect.isSign = 7 ∧
    (_initialize_user uEx envEx).1.findIdx (fun e => e == Effect.genOtpSecret) = 5 ∧
    (_initialize_user uEx envEx).1.findIdx (fun e => e == Effect.commit) = 6 ∧
    ¬ ((_initialize_user uEx envEx).1.findIdx Effect.isSign <
        (_initialize_user uEx envEx).1.findIdx (fun e => e == Effect.genOtpSecret)) ∧
    ¬ ((_initialize_user uEx envEx).1.findIdx Effect.isSign <
        (_initialize_user uEx envEx).1.findIdx (fun e => e == Effect.commit)) := by
  decide

/-- C4 amended: during initialization of a new identity the steps occur
in this order: write the temporary signing-config; under the identity
lock invoke the CA engine for the signing request and key; generate the
OTP secret; commit; then the certificate-signing CA-engine invocation
(with -selfsign exactly when the kind is CA), which therefore happens
after OTP-secret generation and after the persistence commit; delete the
temporary signing-config after signing; finally emit the notifications. -/
theorem C4_initialize_order_amended (u : UserSt) (env : Env)
    (hreq : env.reqOk = true) (hsign : env.signOk = true) :
    _initialize_user u env =
      ([.writeSslConf, .lockAcquire, .engineRequest (u.type ++ "_req_ext"),
        .lockRelease, .chmodKey, .genOtpSecret, .commit,
        .engineSign (u.type == CERT_CA) (u.type ++ "_ext"), .deleteSslConf] ++
        (if u.type == CERT_CLIENT then [.logCreatedUser u.name] else []) ++
        [.event .usersUpdated (some u.org_id), .event .serversUpdated none],
       .ok ()) := by
  simp [_initialize_user, _cert_request, _cert_create, hreq, hsign]

/-- Witness for the amended C4 at a concrete input. -/
theorem C4_initialize_order_witness :
    _initialize_user uEx envEx =
      ([.writeSslConf, .lockAcquire, .engineRequest "client_req_ext",
        .lockRelease, .chmodKey, .genOtpSecret, .commit,
        .engineSign false "client_ext", .deleteSslConf, .logCreatedUser "alice",
        .event .usersUpdated (some "org1"), .event .serversUpdated none],
       .ok ()) := by
  exact C4_initialize_order_amended uEx envEx rfl rfl

/-! ## Claim C7 about removal -/

/-- C7: when revocation succeeds, removal succeeds (nothing is raised)
and every derived file (signing request, temporary signing-config,
private key, certificate, persisted record) is absent from the final
file system: each deletion is an independent best-effort attempt, so a
missing file (for example the key file) never prevents the deletion of
the remaining files. -/
theorem C7_remove_best_effort (u : UserSt) (reason : String) (env : Env)
    (fs : FS) (hrev : (_revoke u reason env fs).2.2 = .ok ()) :
    (remove u reason env fs).2.2 = .ok () ∧
    fsLookup (remove u reason env fs).2.1 (reqs_path u) = none ∧
    fsLookup (remove u reason env fs).2.1 (ssl_conf_path u) = none ∧
    fsLookup (remove u reason env fs).2.1 (key_path u) = none ∧
    fsLookup (remove u reason env fs).2.1 (cert_path u) = none ∧
    fsLookup (remove u reason env fs).2.1 (user_conf_path u) = none := by
  rcases hrv : _revoke u reason env fs with ⟨tr, fs1, r⟩
  rw [hrv] at hrev
  simp only at hrev
  cases r with
  | error e => exact absurd hrev (by simp)
  | ok v =>
      cases v
      simp only [remove, hrv]
      refine ⟨trivial, ?_, ?_, ?_, ?_, ?_⟩
      · exact tryRemove_lookup_none _ _ _ _ (tryRemove_lookup_none _ _ _ _
          (tryRemove_lookup_none _ _ _ _ (tryRemove_lookup_none _ _ _ _
            (tryRemove_lookup_self fs1 (reqs_path u) true))))
      · exact tryRemove_lookup_none _ _ _ _ (tryRemove_lookup_none _ _ _ _
          (tryRemove_lookup_none _ _ _ _
            (tryRemove_lookup_self _ (ssl_conf_path u) false)))
      · exact tryRemove_lookup_none _ _ _ _ (tryRemove_lookup_none _ _ _ _
          (tryRemove_lookup_self _ (key_path u) true))
      · exact tryRemove_lookup_none _ _ _ _
          (tryRemove_lookup_self _ (cert_path u) true)
      · exact tryRemove_lookup_self _ (user_conf_path u) true

/-- Witness for C7 at a concrete input whose key file is missing: the
certificate and the persisted record are still deleted and nothing is
raised. -/
theorem C7_remove_best_effort_witness :
    (remove uEx "unspecified" envEx fsEx).2.2 = .ok () ∧
    fsLookup (remove uEx "unspecified" envEx fsEx).2.1 (reqs_path uEx) = none ∧
    fsLookup (remove uEx "unspecified" envEx fsEx).2.1 (ssl_conf_path uEx) = none ∧
    fsLookup (remove uEx "unspecified" envEx fsEx).2.1 (key_path uEx) = none ∧
    fsLookup (remove uEx "unspecified" envEx fsEx).2.1 (cert_path uEx) = none ∧
    fsLookup (remove uEx "unspecified" envEx fsEx).2.1 (user_conf_path uEx) = none :=
  C7_remove_best_effort uEx "unspecified" envEx fsEx (by rfl)

/-! ## String-append lemmas used by the bundle claims -/

theorem strAppend_assoc (a b c : String) : a ++ b ++ c = a ++ (b ++ c) := by
  rcases a with ⟨da⟩; rcases b with ⟨db⟩; rcases c with ⟨dc⟩
  show String.mk (da ++ db ++ dc) = String.mk (da ++ (db ++ dc))
  rw [List.append_assoc]

theorem strAppend_empty (a : String) : a ++ "" = a := by
  rcases a with ⟨da⟩
  show String.mk (da ++ []) = String.mk da
  rw [List.append_nil]

theorem strEqOfData (a b : String) (h : a.data = b.data) : a = b := by
  rcases a with ⟨da⟩; rcases b with ⟨db⟩
  exact congrArg String.mk h

/-! ## Claim C8 about inline archive building -/

/-- C8: inline-mode bundle building over an organization exposing N
servers produces an archive with exactly N entries, one per server; each
entry is the profile for its server, whose text decomposes as the
template instantiation, then the auth-user-pass directive exactly when
the server requires the second factor, then the three delimited blocks
embedding the server CA certificate, the client certificate and the
private key; each of the three blocks occurs in the text. -/
theorem C8_inline_archive (u : UserFiles) (servers : List ServerInfo) :
    (_build_inline_key_archive u servers).length = servers.length ∧
    ∀ e ∈ _build_inline_key_archive u servers, ∃ s ∈ servers,
      e.1 = u.org_name ++ "_" ++ u.name ++ "_" ++ s.name ++ ".ovpn" ∧
      e.2 = OVPN_INLINE_CLIENT_CONF s.protocol s.public_address s.port ++
        ((if s.otp_auth then "auth-user-pass\n" else "") ++
          ("<ca>\n" ++ s.ca_cert_block ++ "\n</ca>\n" ++
            ("<cert>\n" ++ u.cert_block ++ "\n</cert>\n" ++
              ("<key>\n" ++ u.key_data ++ "\n</key>\n")))) ∧
      (∃ p q, e.2 = p ++ ("<ca>\n" ++ s.ca_cert_block ++ "\n</ca>\n") ++ q) ∧
      (∃ p q, e.2 = p ++ ("<cert>\n" ++ u.cert_block ++ "\n</cert>\n") ++ q) ∧
      (∃ p, e.2 = p ++ ("<key>\n" ++ u.key_data ++ "\n</key>\n")) := by
  constructor
  · simp [_build_inline_key_archive]
  · intro e he
    rcases List.mem_map.mp he with ⟨s, hs, rfl⟩
    refine ⟨s, hs, rfl, ?_, ?_, ?_, ?_⟩
    · apply strEqOfData
      cases hot : s.otp_auth <;>
        simp [inlineArchiveEntry, hot, String.data_append, List.append_assoc]
    · refine ⟨(if s.otp_auth then
          OVPN_INLINE_CLIENT_CONF s.protocol s.public_address s.port ++
            "auth-user-pass\n"
        else OVPN_INLINE_CLIENT_CONF s.protocol s.public_address s.port),
        "<cert>\n" ++ u.cert_block ++ "\n</cert>\n" ++
          ("<key>\n" ++ u.key_data ++ "\n</key>\n"), ?_⟩
      apply strEqOfData
      cases hot : s.otp_auth <;>
        simp [inlineArchiveEntry, hot, String.data_append, List.append_assoc]
    · refine ⟨(if s.otp_auth then
          OVPN_INLINE_CLIENT_CONF s.protocol s.public_address s.port ++
            "auth-user-pass\n"
        else OVPN_INLINE_CLIENT_CONF s.protocol s.public_address s.port) ++
          ("<ca>\n" ++ s.ca_cert_block ++ "\n</ca>\n"),
        "<key>\n" ++ u.key_data ++ "\n</key>\n", ?_⟩
      apply strEqOfData
      cases hot : s.otp_auth <;>
        simp [inlineArchiveEntry, hot, String.data_append, List.append_assoc]
    · refine ⟨(if s.otp_auth then
          OVPN_INLINE_CLIENT_CONF s.protocol s.public_address s.port ++
            "auth-user-pass\n"
        else OVPN_INLINE_CLIENT_CONF s.protocol s.public_address s.port) ++
          ("<ca>\n" ++ s.ca_cert_block ++ "\n</ca>\n") ++
          ("<cert>\n" ++ u.cert_block ++ "\n</cert>\n"), ?_⟩
      apply strEqOfData
      cases hot : s.otp_auth <;>
        simp [inlineArchiveEntry, hot, String.data_append, List.append_assoc]

/-- Witness for C8 at a concrete two-server organization. -/
theorem C8_inline_archive_witness :
    (_build_inline_key_archive ufEx [sEx1, sEx2]).length = 2 :=
  (C8_inline_archive ufEx [sEx1, sEx2]).1

/-! ## Claim C10: the single-profile variant refines the archive entry -/

/-- C10: for a server of the organization found by the registry lookup,
build_key_conf returns exactly the (display name, profile text) pair
that the inline archive builder writes for that server, and that pair is
an entry of the inline archive. -/
theorem C10_build_key_conf_refines (u : UserFiles) (servers : List ServerInfo)
    (server_id : String) (s : ServerInfo)
    (h : get_server servers server_id = some s) :
    build_key_conf u servers server_id = some (inlineArchiveEntry u s) ∧
    inlineArchiveEntry u s ∈ _build_inline_key_archive u servers := by
  constructor
  · simp [build_key_conf, h, inlineArchiveEntry]
  · exact List.mem_map.mpr ⟨s, List.mem_of_find?_eq_some h, rfl⟩

/-- Witness for C10 at a concrete input. -/
theorem C10_build_key_conf_refines_witness :
    build_key_conf ufEx [sEx1, sEx2] "s2" = some (inlineArchiveEntry ufEx sEx2) ∧
    inlineArchiveEntry ufEx sEx2 ∈ _build_inline_key_archive ufEx [sEx1, sEx2] :=
  C10_build_key_conf_refines ufEx [sEx1, sEx2] "s2" sEx2 (by decide)

/-! ## Lemmas on the used-passcode pruning loop -/

theorem otpPruneLoop_cons (code : String) (now t : Nat) (c : String)
    (rest cur : List (Nat × String)) :
    otpPruneLoop code now ((t, c) :: rest) cur =
      if c = code then (false, if now - t > 120 then dict_remove cur t else cur)
      else otpPruneLoop code now rest
        (if now - t > 120 then dict_remove cur t else cur) := rfl

/-- If some snapshot entry carries the submitted code, the loop rejects,
whatever the current record is. -/
theorem otpPruneLoop_fst_false (code : String) (now : Nat) :
    ∀ (rest cur : List (Nat × String)), (∃ e ∈ rest, e.2 = code) →
      (otpPruneLoop code now rest cur).1 = false := by
  intro rest
  induction rest with
  | nil => intro cur h; simp at h
  | cons hd tl ih =>
      intro cur h
      obtain ⟨t, c⟩ := hd
      by_cases hc : c = code
      · rw [otpPruneLoop_cons, if_pos hc]
      · rw [otpPruneLoop_cons, if_neg hc]
        rcases h with ⟨e, he, hec⟩
        rcases List.mem_cons.mp he with heq | hrest
        · exact absurd (by rw [heq] at hec; exact hec) hc
        · exact ih _ ⟨e, hrest, hec⟩

/-- If no snapshot entry carries the submitted code, the loop accepts
and the final record is the pruned record with the code added under the
current timestamp.  The accumulator acc models the already-walked part
of the record (already pruned), whose keys are disjoint from the keys of
the part still to walk. -/
theorem otpPruneLoop_accept (code : String) (now : Nat) :
    ∀ (rest acc : List (Nat × String)),
      (rest.map Prod.fst).Nodup →
      (∀ e ∈ acc, ∀ f ∈ rest, e.1 ≠ f.1) →
      (∀ e ∈ rest, e.2 ≠ code) →
      otpPruneLoop code now rest (acc ++ rest) =
        (true, dict_set (acc ++ rest.filter (keepEntry now)) now code) := by
  intro rest
  induction rest with
  | nil => intro acc _ _ _; simp [otpPruneLoop]
  | cons hd tl ih =>
      intro acc hnodup hdisj hnc
      obtain ⟨t, c⟩ := hd
      have hc : c ≠ code := hnc (t, c) (List.mem_cons_self _ _)
      simp only [List.map_cons, List.nodup_cons] at hnodup
      rw [otpPruneLoop_cons, if_neg hc]
      by_cases hp : now - t > 120
      · rw [if_pos hp]
        have hkeep : keepEntry now (t, c) = false := by simp [keepEntry, hp]
        have hcur : dict_remove (acc ++ (t, c) :: tl) t = acc ++ tl := by
          unfold dict_remove
          rw [List.filter_append]
          have e1 : acc.filter (fun e => decide (e.1 ≠ t)) = acc := by
            apply List.filter_eq_self.mpr
            intro a ha
            simpa using hdisj a ha (t, c) (List.mem_cons_self _ _)
          have e2 : ((t, c) :: tl).filter (fun e => decide (e.1 ≠ t)) = tl := by
            rw [List.filter_cons]
            have ht : (decide ((t, c).1 ≠ t)) = false := by simp
            rw [ht]
            simp only [Bool.false_eq_true, if_false]
            apply List.filter_eq_self.mpr
            intro a ha
            simp only [decide_eq_true_eq]
            intro heq
            exact hnodup.1 (heq ▸ List.mem_map_of_mem Prod.fst ha)
          rw [e1, e2]
        rw [hcur]
        rw [ih acc hnodup.2
          (fun e he f hf => hdisj e he f (List.mem_cons_of_mem _ hf))
          (fun e he => hnc e (List.mem_cons_of_mem _ he))]
        simp [List.filter_cons, hkeep]
      · rw [if_neg hp]
        have hkeep : keepEntry now (t, c) = true := by simp [keepEntry, hp]
        have hshape : acc ++ (t, c) :: tl = (acc ++ [(t, c)]) ++ tl := by simp
        rw [hshape]
        have hdisj2 : ∀ e ∈ acc ++ [(t, c)], ∀ f ∈ tl, e.1 ≠ f.1 := by
          intro e he f hf
          rcases List.mem_append.mp he with h | h
          · exact hdisj e h f (List.mem_cons_of_mem _ hf)
          · have he2 : e = (t, c) := by simpa using h
            subst he2
            intro heq
            exact hnodup.1
              (by rw [show t = f.1 from heq]
                  exact List.mem_map_of_mem Prod.fst hf)
        rw [ih (acc ++ [(t, c)]) hnodup.2 hdisj2
          (fun e he => hnc e (List.mem_cons_of_mem _ he))]
        simp [List.filter_cons, hkeep]

/-! ## Claim C2 about the candidate window -/

/-- C2: when the stored secret decodes, the candidate set has exactly
three entries (the epoch offsets -1, 0 and +1 of the current 30-second
epoch counter, each derived by the standard algorithm embedded in
totpCandidate and validCodes); a submitted code outside the candidate
set is rejected without touching the used-passcode record, and every
accepted code is a member of the candidate set. -/
theorem C2_otp_window (secret code : String) (now : Nat)
    (cache : List (Nat × String)) (cs : List String)
    (hcs : validCodes secret now = some cs) :
    cs.length = 3 ∧
    (code ∉ cs → verify_otp_code secret code now cache = some (false, cache)) ∧
    (∀ st, verify_otp_code secret code now cache = some (true, st) → code ∈ cs) := by
  refine ⟨?_, ?_, ?_⟩
  · unfold validCodes at hcs
    cases hb : b32decode (strUpper (padSecret secret)) with
    | none => rw [hb] at hcs; simp at hcs
    | some key =>
        rw [hb] at hcs
        simp only [Option.some.injEq] at hcs
        rw [← hcs]
        rfl
  · intro hmem
    simp [verify_otp_code, hcs, hmem]
  · intro st h
    by_cases hmem : code ∈ cs
    · exact hmem
    · simp [verify_otp_code, hcs, hmem] at h

set_option maxRecDepth 2000000 in
/-- Witness for C2 at a concrete input: at time 200 the three candidates
of the all-A secret are these three codes, and the code 000000, outside
the set, is rejected without touching the record. -/
theorem C2_otp_window_witness :
    verify_otp_code "AAAAAAAAAAAAAAAA" "000000" 200 [] = some (false, []) :=
  (C2_otp_window "AAAAAAAAAAAAAAAA" "000000" 200 []
      ["435986", "964213", "267638"] (by decide)).2.1 (by decide)

/-! ## Claim C1 about replay protection -/

set_option maxRecDepth 2000000 in
/-- C1 counterexample: at time 200 the code 964213 is the middle window
candidate of the all-A secret; the only record entry is 200 seconds old,
so it does not survive the pruning (third conjunct), hence the claim
predicts acceptance with the code recorded under the current timestamp;
the code instead rejects and returns the pruned record (first and fourth
conjuncts): the entry removed by this very call still causes the
rejection. -/
theorem C1_otp_replay_counterexample :
    verify_otp_code "AAAAAAAAAAAAAAAA" "964213" 200 [(0, "964213")] =
      some (false, []) ∧
    "964213" ∈ (validCodes "AAAAAAAAAAAAAAAA" 200).getD [] ∧
    ([(0, "964213")] : List (Nat × String)).filter (keepEntry 200) = [] ∧
    verify_otp_code "AAAAAAAAAAAAAAAA" "964213" 200 [(0, "964213")] ≠
      some (true, dict_set [] 200 "964213") := by
  decide

/-- C1 amended: for a submitted code among the window candidates, the
verifier rejects exactly when the code equals a used code present in the
record at the start of the call, whether or not that entry is older than
120 seconds and pruned by the same call; when no entry carries the code,
the entries older than 120 seconds are pruned, the code is recorded
under the current timestamp, and the call accepts — so each valid
30-second-window code is accepted at most once per identity while any
record entry carrying it remains. -/
theorem C1_otp_replay_amended (secret code : String) (now : Nat)
    (cache : List (Nat × String))
    (hnodup : (cache.map Prod.fst).Nodup)
    (hcode : code ∈ (validCodes secret now).getD []) :
    (code ∈ cache.map Prod.snd →
      (verify_otp_code secret code now cache).map Prod.fst = some false) ∧
    (code ∉ cache.map Prod.snd →
      verify_otp_code secret code now cache =
        some (true, dict_set (cache.filter (keepEntry now)) now code)) := by
  rcases hv : validCodes secret now with _ | cs
  · rw [hv] at hcode; simp at hcode
  · rw [hv] at hcode
    simp only [Option.getD_some] at hcode
    have hverify : verify_otp_code secret code now cache =
        some (otpPruneLoop code now cache cache) := by
      simp [verify_otp_code, hv, hcode]
    constructor
    · intro hmem
      rcases List.mem_map.mp hmem with ⟨e, he, hec⟩
      rw [hverify]
      simp only [Option.map_some']
      rw [otpPruneLoop_fst_false code now cache cache ⟨e, he, hec⟩]
    · intro hmem
      have hnc : ∀ e ∈ cache, e.2 ≠ code := by
        intro e he heq
        exact hmem (heq ▸ List.mem_map_of_mem Prod.snd he)
      have h := otpPruneLoop_accept code now cache [] hnodup
        (by intro e he; simp at he) hnc
      rw [hverify]
      simpa using h

set_option maxRecDepth 2000000 in
/-- Witness for the amended C1 at a concrete input: the surviving
unrelated entry stays, the accepted code is recorded under the current
timestamp. -/
theorem C1_otp_replay_witness :
    verify_otp_code "AAAAAAAAAAAAAAAA" "964213" 200 [(100, "111111")] =
      some (true,
        dict_set ([(100, "111111")].filter (keepEntry 200)) 200 "964213") :=
  (C1_otp_replay_amended "AAAAAAAAAAAAAAAA" "964213" 200 [(100, "111111")]
      (by decide) (by decide)).2 (by decide)

end Pritunl
